import Mathlib

/-!
Shallow embedding of the analytical core of the `shopping_analysis` package
(indicator/cash-flow/delinquency/trend analyzers and the insight engine).

Monetary and percentage values are embedded as rationals (`ℚ`); the Python
`float` square root used by `statistics.stdev` is idealized as `Real.sqrt`.
`Decimal.quantize(...)` with the default `ROUND_HALF_EVEN` mode is embedded
by `roundHalfEven` at the relevant number of decimal places.
-/

namespace ShoppingAnalysis

/-- `RiskLevel` from `core/enums.py`. -/
inductive RiskLevel where
  | MUITO_BAIXO
  | BAIXO
  | MEDIO
  | ALTO
  | MUITO_ALTO
deriving DecidableEq, Repr

/-- Ordinal rank of a risk level on the 5-level scale (0 = lowest risk). -/
def RiskLevel.rank : RiskLevel → ℕ
  | .MUITO_BAIXO => 0
  | .BAIXO => 1
  | RiskLevel.MEDIO => 2
  | .ALTO => 3
  | .MUITO_ALTO => 4

/-- `TrendDirection` from `core/enums.py`. -/
inductive TrendDirection where
  | CRESCIMENTO
  | DECLINIO
  | ESTAVEL
  | VOLATIL
deriving DecidableEq, Repr

/-- `InsightPriority` from `core/enums.py`. -/
inductive InsightPriority where
  | CRITICA
  | ALTA
  | MEDIA
  | BAIXA
deriving DecidableEq, Repr

/-- `DebtStatus` from `core/enums.py`. -/
inductive DebtStatus where
  | CONFISSAO_DIVIDA
  | EM_ATRASO
  | NEGOCIACAO
  | ACORDO
  | QUITADO
  | JURIDICO
deriving DecidableEq, Repr

/-- `BrazilianFormatter.classificar_risco_inadimplencia` from
`formatters/brazilian.py` (lines 210-237): 5-tier classification by debt
value and days late, each tier triggered by value-threshold OR days-threshold. -/
def classificarRiscoInadimplencia (valorDivida : ℚ) (diasAtraso : ℤ) : RiskLevel :=
  if valorDivida ≥ 50000 ∨ diasAtraso ≥ 90 then .MUITO_ALTO
  else if valorDivida ≥ 20000 ∨ diasAtraso ≥ 60 then .ALTO
  else if valorDivida ≥ 5000 ∨ diasAtraso ≥ 30 then RiskLevel.MEDIO
  else if valorDivida ≥ 1000 ∨ diasAtraso ≥ 15 then .BAIXO
  else .MUITO_BAIXO

/-- Raw debtor record as fed to `DelinquencyAnalyzer.analisar`
(a dict; `dias_atraso` may be absent, embedded as `Option`). -/
structure InadimplenteRaw where
  nome : String
  valorDivida : ℚ
  status : Option DebtStatus
  diasAtraso : Option ℤ
deriving Repr

/-- Converted debtor, the fields of `Inadimplente` relevant to the claims. -/
structure Inadimplente where
  nome : String
  valorDivida : ℚ
  status : DebtStatus
  diasAtraso : ℤ
  risco : RiskLevel
deriving Repr

/-- `DelinquencyAnalyzer._converter_inadimplentes` (delinquency_analyzer.py
lines 79-119) acting on one record: status defaults to `CONFISSAO_DIVIDA`,
`dias_atraso` defaults to 60 (`inad.get('dias_atraso', 60)`), and the risk
level is computed by `classificar_risco_inadimplencia`. -/
def converterInadimplente (raw : InadimplenteRaw) : Inadimplente :=
  let dias := raw.diasAtraso.getD 60
  { nome := raw.nome
    valorDivida := raw.valorDivida
    status := raw.status.getD .CONFISSAO_DIVIDA
    diasAtraso := dias
    risco := classificarRiscoInadimplencia raw.valorDivida dias }

/-- Round a rational to the nearest integer, ties to the even integer:
the `ROUND_HALF_EVEN` mode of Python `Decimal.quantize`. -/
def roundHalfEven (q : ℚ) : ℤ :=
  let f : ℤ := ⌊q⌋
  let frac : ℚ := q - f
  if frac < 1/2 then f
  else if 1/2 < frac then f + 1
  else if Even f then f else f + 1

/-- `Decimal.quantize(Decimal('0.1'))`: round to one decimal place. -/
def quantize1 (x : ℚ) : ℚ := (roundHalfEven (10 * x) : ℚ) / 10

/-- `Decimal.quantize(Decimal('0.001'))`: round to three decimal places. -/
def quantize3 (x : ℚ) : ℚ := (roundHalfEven (1000 * x) : ℚ) / 1000

/-- Sort a list of rationals in descending order
(`sorted(..., key=lambda x: x.valor_divida, reverse=True)`). -/
def sortDesc (valores : List ℚ) : List ℚ :=
  valores.mergeSort (fun a b => b ≤ a)

/-- Share of one debt in the total, as computed per ranking entry in
`_gerar_ranking_por_valor` (delinquency_analyzer.py line 130 and 136):
`(valor / sum(valores)) * 100` quantized to one decimal place. -/
def participacaoPercentual (valor total : ℚ) : ℚ :=
  quantize1 (valor / total * 100)

/-- The sequence of `participacao_percentual` entries of the ranking produced
by `_gerar_ranking_por_valor` (delinquency_analyzer.py lines 121-145):
debts sorted descending, each mapped to its percentage share of the total. -/
def rankingParticipacoes (valores : List ℚ) : List ℚ :=
  (sortDesc valores).map (fun v => participacaoPercentual v valores.sum)

/-- `DelinquencyAnalyzer._calcular_indice_gini` (delinquency_analyzer.py
lines 277-289). Its argument is the ledger already sorted in DESCENDING
order by `_analisar_concentracao_dividas`; the formula applies ascending
ranks 1..n to that list: `(2*Σ rank_i*v_i)/(n*Σv) - (n+1)/n`,
quantized to three decimal places; `0` for the empty list. -/
def calcularIndiceGini (valoresOrdenados : List ℚ) : ℚ :=
  let n := valoresOrdenados.length
  if n = 0 then 0
  else
    let somaPonderada : ℚ :=
      ((valoresOrdenados.enum.map (fun p => ((p.1 : ℚ) + 1) * p.2)).sum)
    quantize3 (2 * somaPonderada / (n * valoresOrdenados.sum) - ((n : ℚ) + 1) / n)

/-- The `indice_concentracao` entry of
`DelinquencyAnalyzer._analisar_concentracao_dividas` (delinquency_analyzer.py
lines 244-275): the Gini computation applied to the descending-sorted debts. -/
def indiceConcentracao (valores : List ℚ) : ℚ :=
  calcularIndiceGini (sortDesc valores)

/-- Arithmetic mean of a list, `statistics.mean`. -/
def mean (l : List ℚ) : ℚ := l.sum / l.length

/-- Sum of squared deviations from the mean, the common numerator of the
variance computations in `statistics.stdev` and `statistics.pstdev`. -/
def sumSqDev (l : List ℚ) : ℚ := (l.map (fun x => (x - mean l) ^ 2)).sum

/-- Sample variance `Σ(x-mean)²/(n-1)`, the square of `statistics.stdev`. -/
def sampleVar (l : List ℚ) : ℚ := sumSqDev l / ((l.length : ℚ) - 1)

/-- `CashFlowAnalyzer._calcular_volatilidade_saldos` (cashflow_analyzer.py
lines 143-150): `statistics.stdev(saldos)` — the SAMPLE standard deviation
`√(Σ(x-mean)²/(n-1))` — for 2 or more balances, `Decimal('0')` otherwise.
The Python float square root is idealized as `Real.sqrt` (the final quantize
to two decimals is omitted in this real-valued idealization). -/
noncomputable def volatilidadeSaldos (saldos : List ℚ) : ℝ :=
  if saldos.length < 2 then 0 else Real.sqrt (sampleVar saldos)

/-- Modelled from the spec: `populationStdDev(series)` of §4.1 of spec.md,
"√(Σ(x−mean)²/n); returns 0 for n<2". This definition follows the spec's
words (the repository has no population-standard-deviation routine) and is
compared against the source-derived `volatilidadeSaldos`. -/
noncomputable def populationStdDevSpec (series : List ℚ) : ℝ :=
  if series.length < 2 then 0
  else Real.sqrt ((sumSqDev series : ℝ) / (series.length : ℝ))

/-- Least-squares slope over indices `0..n-1` as computed by
`CashFlowAnalyzer._calcular_tendencia_metrica` (cashflow_analyzer.py
lines 176-204): `slope = (n·Σxy − Σx·Σy)/(n·Σx² − (Σx)²)`, and `0` when the
denominator is zero. -/
def slopeOf (valores : List ℚ) : ℚ :=
  let n : ℚ := valores.length
  let xs : List ℚ := (List.range valores.length).map (fun i => (i : ℚ))
  let sumX := xs.sum
  let sumY := valores.sum
  let sumXY := (valores.enum.map (fun p => (p.1 : ℚ) * p.2)).sum
  let sumX2 := (xs.map (fun x => x ^ 2)).sum
  if n * sumX2 - sumX ^ 2 = 0 then 0
  else (n * sumXY - sumX * sumY) / (n * sumX2 - sumX ^ 2)

/-- The `direcao` computed by `_calcular_tendencia_metrica` (cashflow_analyzer.py
lines 196-204): `ESTAVEL` when `|slope| < 0.1`, otherwise by the sign of the slope. -/
def direcaoOf (valores : List ℚ) : TrendDirection :=
  if |slopeOf valores| < 1/10 then .ESTAVEL
  else if slopeOf valores > 0 then .CRESCIMENTO
  else TrendDirection.DECLINIO

/-- The `intensidade` computed by `_calcular_tendencia_metrica`
(cashflow_analyzer.py lines 196-204), before the final one-decimal quantize:
a fixed `Decimal('20')` in the `ESTAVEL` branch, `min(100, |slope·100|)`
in the growth/decline branches. -/
def intensidadeOf (valores : List ℚ) : ℚ :=
  if |slopeOf valores| < 1/10 then 20
  else min 100 |slopeOf valores * 100|

/-- Python `max(valores_float)` on a non-empty list (junk value 0 on `[]`,
where the Python call would raise). -/
def maxOf : List ℚ → ℚ
  | [] => 0
  | a :: t => t.foldl max a

/-- The `confiabilidade` computed by `_calcular_tendencia_metrica`
(cashflow_analyzer.py lines 206-208):
`max(50, 100 - volatilidade / max(valores) * 100)` where `volatilidade` is
`statistics.stdev(valores)` for more than one value and `0` otherwise.
The final one-decimal quantize is omitted in this real-valued idealization
(it maps the interval bounds claimed of this quantity to themselves). -/
noncomputable def confiabilidadeOf (valores : List ℚ) : ℝ :=
  let volatilidade : ℝ := if valores.length > 1 then Real.sqrt (sampleVar valores) else 0
  max 50 (100 - volatilidade / ((maxOf valores : ℚ) : ℝ) * 100)

/-- The fields of the `TendenciaFinanceira` record (core/models.py lines
115-129) that the claims are about; `pontosCriticos` keeps the 0-based
indices of the negative values flagged by the `"Mês i+1: Valor negativo"`
markers. -/
structure TendenciaFinanceira where
  metrica : String
  direcao : TrendDirection
  intensidade : ℚ
  pontosCriticos : List ℕ
  confiabilidade : ℝ

/-- `_calcular_tendencia_metrica` (cashflow_analyzer.py lines 176-224):
the record it passes to the `TendenciaFinanceira` constructor. -/
noncomputable def calcularTendenciaMetrica (valores : List ℚ) (nome : String) :
    TendenciaFinanceira :=
  { metrica := nome
    direcao := direcaoOf valores
    intensidade := quantize1 (intensidadeOf valores)
    pontosCriticos := (valores.enum.filter (fun p => p.2 < 0)).map (fun p => p.1)
    confiabilidade := confiabilidadeOf valores }

/-- `TendenciaFinanceira.validar_percentuais` (core/models.py lines 125-129):
pydantic accepts the record only when `intensidade` and `confiabilidade`
both lie in `[0, 100]`; otherwise construction raises. -/
def TendenciaValida (t : TendenciaFinanceira) : Prop :=
  0 ≤ t.intensidade ∧ t.intensidade ≤ 100 ∧
    0 ≤ t.confiabilidade ∧ t.confiabilidade ≤ 100

/-- The consecutive-negative-months loop of
`CashFlowAnalyzer._gerar_alertas_cashflow` (cashflow_analyzer.py lines
384-400): a running counter of consecutive negative balances, reset on a
non-negative balance; as soon as it reaches 2 the critical alert is appended
and the loop breaks. `k` is the counter value on loop entry. -/
def alertaLoop : List ℚ → ℕ → Bool
  | [], _ => false
  | s :: rest, k =>
    let kNovo := if s < 0 then k + 1 else 0
    if 2 ≤ kNovo then true else alertaLoop rest kNovo

/-- Whether `_gerar_alertas_cashflow` emits the critical
"Meses Consecutivos com Saldo Negativo" alert, as a function of the
month-sorted operating balances. -/
def alertaMesesNegativosConsecutivos (saldos : List ℚ) : Bool :=
  alertaLoop saldos 0

/-- The exception kinds of `core/exceptions.py` reachable from the analyzer
entry points: `InsufficientDataError` (with its `minimum_required`/`actual`
fields), `CalculationError` (stage tag plus detail string), and raw Python
exceptions (pydantic `ValueError`s, `ZeroDivisionError`) carrying a message. -/
inductive AnalysisError where
  | insufficientData (analysisType : String) (minimumRequired actual : ℕ)
  | calculationError (calculationType : String) (details : String)
  | pythonException (message : String)
deriving DecidableEq, Repr

/-- `str(e)` on an exception: the message built by the constructors in
`core/exceptions.py` (lines 21-42; quotes around interpolated fields elided). -/
def AnalysisError.message : AnalysisError → String
  | .insufficientData t r a =>
      "Dados insuficientes para análise " ++ t ++ ". Mínimo necessário: " ++
        toString r ++ ", atual: " ++ toString a
  | .calculationError t d => "Erro no cálculo " ++ t ++ ": " ++ d
  | .pythonException m => m

/-- Whether an analyzer outcome is a failure with `InsufficientDataError`. -/
def failsInsufficientData {α : Type} : Except AnalysisError α → Bool
  | .error (.insufficientData _ _ _) => true
  | _ => false

/-- Whether an analyzer outcome is a failure with `CalculationError`. -/
def failsCalculationError {α : Type} : Except AnalysisError α → Bool
  | .error (.calculationError _ _) => true
  | _ => false

/-- Raw monthly movement dict fed to `CashFlowAnalyzer.analisar`
(`ano` may be absent, defaulting to 2025 in `_converter_movimentacoes`). -/
structure MovimentacaoRaw where
  mes : String
  ano : Option ℤ
  credito : ℚ
  debito : ℚ
  saldoOperacional : ℚ

/-- The fields of `MovimentacaoFinanceira` (core/models.py lines 39-62)
used by the cash-flow claims. -/
structure MovimentacaoFinanceira where
  mes : String
  ano : ℤ
  credito : ℚ
  debito : ℚ
  saldoOperacional : ℚ

/-- The 12-entry calendar table `meses_ordem` of `CashFlowAnalyzer.__init__`. -/
def mesesOrdem : List String :=
  ["janeiro", "fevereiro", "março", "abril", "maio", "junho",
   "julho", "agosto", "setembro", "outubro", "novembro", "dezembro"]

/-- The abbreviation fallback table of `_obter_indice_mes`. -/
def abreviacoes : List (String × ℕ) :=
  [("mai", 4), ("jun", 5), ("jul", 6), ("ago", 7),
   ("set", 8), ("out", 9), ("nov", 10), ("dez", 11)]

/-- `CashFlowAnalyzer._obter_indice_mes` (cashflow_analyzer.py lines 95-106):
position in the month table, else the abbreviation table, else index 0. -/
def obterIndiceMes (mes : String) : ℕ :=
  let mesLower := mes.toLower
  match mesesOrdem.indexOf? mesLower with
  | some i => i
  | none => ((abreviacoes.find? (fun p => p.1 == mesLower)).map Prod.snd).getD 0

/-- `CashFlowAnalyzer._converter_movimentacoes` (cashflow_analyzer.py lines
75-93): per-record conversion — `ano` defaults to 2025, `debito` is replaced
by its absolute value, and the pydantic validator of
`MovimentacaoFinanceira` rejects a negative `credito`, which
`_converter_movimentacoes` wraps in a conversion-stage `CalculationError` —
followed by a (stable) sort on the month index. -/
def converterMovimentacoes (movs : List MovimentacaoRaw) :
    Except AnalysisError (List MovimentacaoFinanceira) := do
  let objs ← movs.mapM (fun mov =>
    if mov.credito < 0 then
      Except.error (.calculationError ("conversao_movimentacao_" ++ mov.mes)
        "Valores de crédito e débito devem ser positivos")
    else
      Except.ok
        { mes := mov.mes
          ano := mov.ano.getD 2025
          credito := mov.credito
          debito := |mov.debito|
          saldoOperacional := mov.saldoOperacional })
  Except.ok (objs.mergeSort (fun a b => obterIndiceMes a.mes ≤ obterIndiceMes b.mes))

/-- The fields of the `resumo_mensal` dict (`_analisar_resumo_mensal`,
cashflow_analyzer.py lines 108-141) referenced by the claims. -/
structure ResumoMensal where
  totalCreditos : ℚ
  totalDebitos : ℚ
  saldoConsolidado : ℚ
  mesesPositivos : ℕ
  mesesNegativos : ℕ
  volatilidade : ℝ

/-- `_analisar_resumo_mensal` restricted to the fields above. -/
noncomputable def analisarResumoMensal (movs : List MovimentacaoFinanceira) :
    ResumoMensal :=
  let saldos := movs.map (fun m => m.saldoOperacional)
  { totalCreditos := (movs.map (fun m => m.credito)).sum
    totalDebitos := (movs.map (fun m => m.debito)).sum
    saldoConsolidado := saldos.sum
    mesesPositivos := (saldos.filter (fun s => 0 < s)).length
    mesesNegativos := (saldos.filter (fun s => s < 0)).length
    volatilidade := volatilidadeSaldos saldos }

open Classical in
/-- `_calcular_tendencia_metrica` as it can actually fail inside
`analisar`: a zero maximum makes `volatilidade / max(valores_float)` raise
`ZeroDivisionError`, and a record violating `validar_percentuais` makes the
pydantic constructor raise; both propagate out of the helper uncaught. -/
noncomputable def calcularTendenciaMetricaE (valores : List ℚ) (nome : String) :
    Except AnalysisError TendenciaFinanceira :=
  if maxOf valores = 0 then
    Except.error (.pythonException "float division by zero")
  else
    let t := calcularTendenciaMetrica valores nome
    if TendenciaValida t then Except.ok t
    else Except.error (.pythonException "Valores devem estar entre 0 e 100")

/-- The parts of the dict returned by `CashFlowAnalyzer.analisar` that the
claims are about. -/
structure CashFlowAnalysis where
  movimentacoesAnalisadas : List MovimentacaoFinanceira
  resumoMensal : ResumoMensal
  tendencias : List TendenciaFinanceira
  alertaConsecutivoNegativo : Bool

/-- The body of `CashFlowAnalyzer.analisar` (cashflow_analyzer.py lines
37-71) before its `except Exception` boundary: the minimum-length check
raising `InsufficientDataError("analise_cashflow", 2, len)`, conversion,
monthly summary, the three per-metric trends, and the
consecutive-negative-months alert. -/
noncomputable def analisarCashflowBody (movs : List MovimentacaoRaw) :
    Except AnalysisError CashFlowAnalysis := do
  if movs.length < 2 then
    throw (.insufficientData "analise_cashflow" 2 movs.length)
  let objs ← converterMovimentacoes movs
  let saldos := objs.map (fun m => m.saldoOperacional)
  let tendenciaCreditos ← calcularTendenciaMetricaE
    (objs.map (fun m => m.credito)) "Créditos Mensais"
  let tendenciaDebitos ← calcularTendenciaMetricaE
    (objs.map (fun m => m.debito)) "Débitos Mensais"
  let tendenciaSaldo ← calcularTendenciaMetricaE saldos "Saldo Operacional"
  Except.ok
    { movimentacoesAnalisadas := objs
      resumoMensal := analisarResumoMensal objs
      tendencias := [tendenciaCreditos, tendenciaDebitos, tendenciaSaldo]
      alertaConsecutivoNegativo := alertaMesesNegativosConsecutivos saldos }

/-- `CashFlowAnalyzer.analisar` (cashflow_analyzer.py lines 37-73): the
whole body runs inside `try`, and `except Exception as e` re-raises every
failure — the `InsufficientDataError` included — as
`CalculationError("analise_cashflow", str(e))`. -/
noncomputable def analisarCashflowE (movs : List MovimentacaoRaw) :
    Except AnalysisError CashFlowAnalysis :=
  match analisarCashflowBody movs with
  | .error e => .error (.calculationError "analise_cashflow" e.message)
  | .ok r => .ok r

/-- `TrendAnalyzer.analisar` (trend_analyzer.py lines 38-79) on the series
of principal values (the per-record field extracted by
`_converter_series_temporais`, which cannot fail on well-typed numeric
records): fewer than `min_periodos_tendencia = 3` observations raise
`InsufficientDataError("analise_tendencias", 3, len)` inside the same
`try/except Exception` boundary, which re-raises it as
`CalculationError("analise_tendencias", str(e))`. The success value keeps
the standardized series `(periodo, valor_principal)` with 1-based periods. -/
def analisarTendenciasE (dados : List ℚ) : Except AnalysisError (List (ℕ × ℚ)) :=
  match (if dados.length < 3 then
          Except.error (AnalysisError.insufficientData "analise_tendencias" 3 dados.length)
         else
          Except.ok (dados.enum.map (fun p => (p.1 + 1, p.2)))) with
  | .error e => .error (.calculationError "analise_tendencias" e.message)
  | .ok r => .ok r

/-- `DelinquencyAnalyzer._converter_inadimplentes` (delinquency_analyzer.py
lines 79-119) over the whole ledger: the pydantic validators of
`Inadimplente` (core/models.py lines 77-87) reject `valor_divida ≤ 0` and a
provided negative `dias_atraso`; those failures are wrapped per record as a
conversion-stage `CalculationError`. -/
def converterInadimplentesE (inads : List InadimplenteRaw) :
    Except AnalysisError (List Inadimplente) :=
  inads.mapM (fun raw =>
    if raw.valorDivida ≤ 0 then
      Except.error (.calculationError ("conversao_inadimplente_" ++ raw.nome)
        "Valor da dívida deve ser positivo")
    else if (raw.diasAtraso.getD 60) < 0 then
      Except.error (.calculationError ("conversao_inadimplente_" ++ raw.nome)
        "Dias em atraso não podem ser negativos")
    else
      Except.ok (converterInadimplente raw))

/-- The parts of the dict returned by `DelinquencyAnalyzer.analisar` that the
claims are about. -/
structure DelinquencyAnalysis where
  inadimplentesAnalisados : List Inadimplente
  rankingParticipacoesPercentuais : List ℚ
  indiceConcentracaoGini : ℚ
  totalInadimplentes : ℕ

/-- The body of `DelinquencyAnalyzer.analisar` (delinquency_analyzer.py lines
41-74) before its `except Exception` boundary: the empty-ledger check raising
`InsufficientDataError("analise_inadimplencia", 1, 0)`, conversion, the
value ranking with percentage shares, and the concentration (Gini) index. -/
def analisarInadimplenciaBody (inads : List InadimplenteRaw) :
    Except AnalysisError DelinquencyAnalysis := do
  if inads.length = 0 then
    throw (.insufficientData "analise_inadimplencia" 1 0)
  let objs ← converterInadimplentesE inads
  let valores := objs.map (fun i => i.valorDivida)
  Except.ok
    { inadimplentesAnalisados := objs
      rankingParticipacoesPercentuais := rankingParticipacoes valores
      indiceConcentracaoGini := indiceConcentracao valores
      totalInadimplentes := objs.length }

/-- `DelinquencyAnalyzer.analisar` (delinquency_analyzer.py lines 41-77):
as for the other analyzers, `except Exception` re-raises every failure —
the `InsufficientDataError` included — as
`CalculationError("analise_inadimplencia", str(e))`. -/
def analisarInadimplenciaE (inads : List InadimplenteRaw) :
    Except AnalysisError DelinquencyAnalysis :=
  match analisarInadimplenciaBody inads with
  | .error e => .error (.calculationError "analise_inadimplencia" e.message)
  | .ok r => .ok r

/-- The fields of `InsightFinanceiro` (core/models.py lines 96-106) that the
ordering claim is about: `prioridade` and the optional `valor_impacto`. -/
structure InsightFin where
  prioridade : InsightPriority
  valorImpacto : Option ℚ

/-- The `ordem_prioridade` table of `InsightEngine._priorizar_insights`
(insight_engine.py lines 365-370). -/
def ordemPrioridade : InsightPriority → ℕ
  | .CRITICA => 4
  | .ALTA => 3
  | .MEDIA => 2
  | .BAIXA => 1

/-- `float(x.valor_impacto or 0)`: a missing impact counts as 0. -/
def impactoEfetivo (i : InsightFin) : ℚ := i.valorImpacto.getD 0

/-- The comparison realized by
`sorted(insights, key=lambda x: (ordem_prioridade[x.prioridade],
float(x.valor_impacto or 0)), reverse=True)`: a stable sort under the
reversed lexicographic key order. -/
def chaveGe (a b : InsightFin) : Bool :=
  decide (ordemPrioridade b.prioridade < ordemPrioridade a.prioridade ∨
    (ordemPrioridade a.prioridade = ordemPrioridade b.prioridade ∧
      impactoEfetivo b ≤ impactoEfetivo a))

/-- `InsightEngine._priorizar_insights` (insight_engine.py lines 362-379):
the stable descending sort of the generated insights by
(priority rank, estimated impact). -/
def priorizarInsights (insights : List InsightFin) : List InsightFin :=
  insights.mergeSort chaveGe

/-- Two adjacent entries of the balance sequence are both negative: the
condition claimed to characterize the consecutive-negative-months alert. -/
def ExisteParNegativo (l : List ℚ) : Prop :=
  ∃ i, i + 1 < l.length ∧ l.getD i 0 < 0 ∧ l.getD (i + 1) 0 < 0

theorem existeParNegativo_cons (a : ℚ) (rest : List ℚ) :
    ExisteParNegativo (a :: rest) ↔
      (a < 0 ∧ 0 < rest.length ∧ rest.getD 0 0 < 0) ∨ ExisteParNegativo rest := by
  constructor
  · rintro ⟨i, hi, h1, h2⟩
    match i with
    | 0 =>
      left
      simp only [List.getD_cons_zero, List.getD_cons_succ] at h1 h2
      exact ⟨h1, by simpa using hi, h2⟩
    | j + 1 =>
      right
      simp only [List.getD_cons_succ] at h1 h2
      exact ⟨j, by simpa using hi, h1, h2⟩
  · rintro (⟨h1, hlen, h2⟩ | ⟨j, hj, h1, h2⟩)
    · exact ⟨0, by simpa using hlen, by simpa using h1, by simpa using h2⟩
    · exact ⟨j + 1, by simpa using hj, by simpa using h1, by simpa using h2⟩

theorem alertaLoop_carateriza (l : List ℚ) :
    (alertaLoop l 0 = true ↔ ExisteParNegativo l) ∧
      (alertaLoop l 1 = true ↔
        ((0 < l.length ∧ l.getD 0 0 < 0) ∨ ExisteParNegativo l)) := by
  induction l with
  | nil =>
    constructor <;> simp [alertaLoop, ExisteParNegativo]
  | cons a rest ih =>
    have hcons := existeParNegativo_cons a rest
    by_cases ha : a < 0
    · constructor
      · rw [show alertaLoop (a :: rest) 0 = alertaLoop rest 1 by
          simp [alertaLoop, ha]]
        rw [ih.2, hcons]
        tauto
      · rw [show alertaLoop (a :: rest) 1 = true by simp [alertaLoop, ha]]
        simp only [true_iff]
        left
        exact ⟨by simp, by simpa using ha⟩
    · constructor
      · rw [show alertaLoop (a :: rest) 0 = alertaLoop rest 0 by
          simp [alertaLoop, ha]]
        rw [ih.1, hcons]
        tauto
      · rw [show alertaLoop (a :: rest) 1 = alertaLoop rest 0 by
          simp [alertaLoop, ha]]
        rw [ih.1, hcons]
        simp only [List.getD_cons_zero]
        tauto

/-- C7: the cash-flow engine emits the critical consecutive-negative-months
alert exactly when two adjacent entries of the month-sorted balance sequence
are both negative; negative balances that are never adjacent produce none. -/
theorem alerta_consecutivos_iff_par_adjacente :
    ∀ saldos : List ℚ, alertaMesesNegativosConsecutivos saldos = true ↔
      ∃ i, i + 1 < saldos.length ∧
        saldos.getD i 0 < 0 ∧ saldos.getD (i + 1) 0 < 0 := by
  intro saldos
  exact (alertaLoop_carateriza saldos).1

theorem chaveGe_trans (a b c : InsightFin) (h1 : chaveGe a b = true)
    (h2 : chaveGe b c = true) : chaveGe a c = true := by
  simp only [chaveGe, decide_eq_true_eq] at *
  rcases h1 with h1 | ⟨h1e, h1i⟩ <;> rcases h2 with h2 | ⟨h2e, h2i⟩
  · exact Or.inl (h2.trans h1)
  · exact Or.inl (h2e ▸ h1)
  · exact Or.inl (h1e ▸ h2)
  · exact Or.inr ⟨h1e.trans h2e, h2i.trans h1i⟩

theorem chaveGe_total (a b : InsightFin) : (chaveGe a b || chaveGe b a) = true := by
  simp only [chaveGe, Bool.or_eq_true, decide_eq_true_eq]
  rcases lt_trichotomy (ordemPrioridade a.prioridade)
    (ordemPrioridade b.prioridade) with h | h | h
  · exact Or.inr (Or.inl h)
  · rcases le_total (impactoEfetivo b) (impactoEfetivo a) with hi | hi
    · exact Or.inl (Or.inr ⟨h, hi⟩)
    · exact Or.inr (Or.inr ⟨h.symm, hi⟩)
  · exact Or.inl (Or.inl h)

/-- C6: the prioritized insight list is a permutation of the generated
insights on which the priority rank (CRITICAL > HIGH > MEDIUM > LOW) is
non-increasing along the list, and on any run of equal priority the
estimated impact (a missing impact counting as 0) is non-increasing. -/
theorem insights_priorizados_ordenados :
    ∀ insights : List InsightFin,
      (priorizarInsights insights).Perm insights ∧
        (priorizarInsights insights).Pairwise (fun a b =>
          ordemPrioridade b.prioridade ≤ ordemPrioridade a.prioridade ∧
            (ordemPrioridade a.prioridade = ordemPrioridade b.prioridade →
              impactoEfetivo b ≤ impactoEfetivo a)) := by
  intro insights
  refine ⟨List.mergeSort_perm insights chaveGe, ?_⟩
  have hs := List.sorted_mergeSort chaveGe_trans chaveGe_total insights
  refine hs.imp ?_
  intro a b h
  simp only [chaveGe, decide_eq_true_eq] at h
  rcases h with h | ⟨he, hi⟩
  · exact ⟨h.le, fun he => absurd he.symm (ne_of_lt h)⟩
  · exact ⟨he.ge, fun _ => hi⟩

/-- C5: the debtor risk classification is monotonically non-decreasing in the
debt value and in the days late (each with the other fixed) on the 5-level
ordinal scale, and each tier is determined by OR semantics on its value/days
thresholds (value≥50k or days≥90 ⇒ VERY_HIGH; value≥20k or days≥60 ⇒ HIGH;
value≥5k or days≥30 ⇒ MEDIUM; value≥1k or days≥15 ⇒ LOW; else VERY_LOW). -/
theorem risco_monotono_e_or_semantica :
    (∀ (v1 v2 : ℚ) (d : ℤ), v1 ≤ v2 →
      (classificarRiscoInadimplencia v1 d).rank ≤
        (classificarRiscoInadimplencia v2 d).rank) ∧
    (∀ (v : ℚ) (d1 d2 : ℤ), d1 ≤ d2 →
      (classificarRiscoInadimplencia v d1).rank ≤
        (classificarRiscoInadimplencia v d2).rank) ∧
    (∀ (v : ℚ) (d : ℤ),
      (classificarRiscoInadimplencia v d = .MUITO_ALTO ↔ 50000 ≤ v ∨ 90 ≤ d) ∧
      (classificarRiscoInadimplencia v d = .ALTO ↔
        ¬(50000 ≤ v ∨ 90 ≤ d) ∧ (20000 ≤ v ∨ 60 ≤ d)) ∧
      (classificarRiscoInadimplencia v d = RiskLevel.MEDIO ↔
        ¬(50000 ≤ v ∨ 90 ≤ d) ∧ ¬(20000 ≤ v ∨ 60 ≤ d) ∧ (5000 ≤ v ∨ 30 ≤ d)) ∧
      (classificarRiscoInadimplencia v d = .BAIXO ↔
        ¬(50000 ≤ v ∨ 90 ≤ d) ∧ ¬(20000 ≤ v ∨ 60 ≤ d) ∧
          ¬(5000 ≤ v ∨ 30 ≤ d) ∧ (1000 ≤ v ∨ 15 ≤ d)) ∧
      (classificarRiscoInadimplencia v d = .MUITO_BAIXO ↔
        ¬(50000 ≤ v ∨ 90 ≤ d) ∧ ¬(20000 ≤ v ∨ 60 ≤ d) ∧
          ¬(5000 ≤ v ∨ 30 ≤ d) ∧ ¬(1000 ≤ v ∨ 15 ≤ d))) := by
  refine ⟨?_, ?_, ?_⟩
  · intro v1 v2 d h
    unfold classificarRiscoInadimplencia
    split_ifs <;> simp_all [RiskLevel.rank] <;> casesm* _ ∨ _, _ ∧ _ <;>
      first | omega | linarith
  · intro v d1 d2 h
    unfold classificarRiscoInadimplencia
    split_ifs <;> simp_all [RiskLevel.rank] <;> casesm* _ ∨ _, _ ∧ _ <;>
      first | omega | linarith
  · intro v d
    unfold classificarRiscoInadimplencia
    split_ifs <;> simp_all

/-- Concrete instantiation of `risco_monotono_e_or_semantica`: monotonicity
in the debt value at `v1 = 1 ≤ v2 = 60000`, days fixed at 10. -/
theorem risco_monotono_witness :
    (1 : ℚ) ≤ 60000 ∧
      (classificarRiscoInadimplencia 1 10).rank ≤
        (classificarRiscoInadimplencia 60000 10).rank :=
  ⟨by norm_num, risco_monotono_e_or_semantica.1 1 60000 10 (by norm_num)⟩

/-- C9: a debtor record without a `dias_atraso` field gets the default of 60
days late during conversion, and is therefore classified HIGH (`ALTO`) or
VERY_HIGH (`MUITO_ALTO`) no matter how small its positive debt amount is. -/
theorem inadimplente_sem_dias_risco_alto :
    ∀ raw : InadimplenteRaw, raw.diasAtraso = none → 0 < raw.valorDivida →
      (converterInadimplente raw).diasAtraso = 60 ∧
        ((converterInadimplente raw).risco = .ALTO ∨
          (converterInadimplente raw).risco = .MUITO_ALTO) := by
  intro raw hnone _
  simp only [converterInadimplente, classificarRiscoInadimplencia, hnone,
    Option.getD_none]
  refine ⟨by trivial, ?_⟩
  split_ifs <;> simp_all

theorem sumSqDev_nonneg (l : List ℚ) : 0 ≤ sumSqDev l := by
  apply List.sum_nonneg
  intro x hx
  simp only [List.mem_map] at hx
  obtain ⟨y, _, rfl⟩ := hx
  positivity

/-- C2 counterexample: on the balances `[0, 2]` the code's volatility is the
sample standard deviation √2, not the population standard deviation
√(Σ(x−mean)²/n) = 1 stated by the claim. -/
theorem volatilidade_nao_populacional :
    volatilidadeSaldos [0, 2] ≠ populationStdDevSpec [0, 2] := by
  have h1 : volatilidadeSaldos [0, 2] = Real.sqrt 2 := by
    rw [volatilidadeSaldos, if_neg (by norm_num)]
    norm_num [sampleVar, sumSqDev, mean]
  have h2 : populationStdDevSpec [0, 2] = 1 := by
    rw [populationStdDevSpec, if_neg (by norm_num)]
    norm_num [sumSqDev, mean]
  rw [h1, h2]
  intro h
  have h2' : (Real.sqrt 2) ^ 2 = 1 := by
    rw [h]
    norm_num
  rw [Real.sq_sqrt (by norm_num)] at h2'
  norm_num at h2'

/-- C2 (amended): for 2 or more monthly balances the volatility of the
monthly summary is the SAMPLE standard deviation — its square is
Σ(x−mean)²/(n−1), not Σ(x−mean)²/n — and it is 0 when fewer than 2
balances are present. -/
theorem volatilidade_desvio_amostral :
    ∀ saldos : List ℚ,
      (2 ≤ saldos.length →
        (volatilidadeSaldos saldos) ^ 2 =
          (sumSqDev saldos : ℝ) / ((saldos.length : ℝ) - 1)) ∧
      (saldos.length < 2 → volatilidadeSaldos saldos = 0) := by
  intro saldos
  constructor
  · intro h2
    rw [volatilidadeSaldos, if_neg (not_lt.2 h2)]
    rw [Real.sq_sqrt]
    · push_cast [sampleVar]
      ring
    · rw [sampleVar]
      push_cast
      apply div_nonneg
      · exact_mod_cast sumSqDev_nonneg saldos
      · have : (2 : ℝ) ≤ (saldos.length : ℝ) := by exact_mod_cast h2
        linarith
  · intro h
    rw [volatilidadeSaldos, if_pos h]

/-- Concrete instantiation of `volatilidade_desvio_amostral`: on `[0, 2]`
the squared volatility is Σ(x−mean)²/(n−1) = 2/1 = 2. -/
theorem volatilidade_desvio_witness :
    2 ≤ ([0, 2] : List ℚ).length ∧ (volatilidadeSaldos [0, 2]) ^ 2 = 2 := by
  refine ⟨by norm_num, ?_⟩
  have h := (volatilidade_desvio_amostral [0, 2]).1 (by norm_num)
  rw [h]
  norm_num [sumSqDev, mean]

/-- C4 counterexample: on the constant series `[0, 0]` the slope is 0, so
the trend is STABLE — but its intensity is the fixed value 20 that
`_calcular_tendencia_metrica` assigns in the STABLE branch, not
`min(100, |slope|·100) = 0` as the claim states for every direction. -/
theorem tendencia_estavel_intensidade_20 :
    direcaoOf [0, 0] = .ESTAVEL ∧ intensidadeOf [0, 0] = 20 ∧
      min 100 (|slopeOf [0, 0]| * 100) = 0 ∧ (20 : ℚ) ≠ 0 := by
  have h : slopeOf [0, 0] = 0 := by
    norm_num [slopeOf, List.enum, List.range_succ]
  refine ⟨?_, ?_, ?_, by norm_num⟩
  · rw [direcaoOf, if_pos (by rw [h]; norm_num)]
  · rw [intensidadeOf, if_pos (by rw [h]; norm_num)]
  · rw [h]
    norm_num

/-- C4 (amended): each per-metric cash-flow trend is STABLE exactly when the
least-squares slope has absolute value below 0.1, GROWTH when the slope is
at least 0.1, DECLINE when it is at most −0.1; the intensity equals
`min(100, |slope|·100)` in the GROWTH/DECLINE cases but is the fixed value
20 in the STABLE case. -/
theorem tendencia_direcao_intensidade :
    ∀ valores : List ℚ,
      ((direcaoOf valores = .ESTAVEL) ↔ |slopeOf valores| < 1/10) ∧
      (1/10 ≤ slopeOf valores → direcaoOf valores = .CRESCIMENTO) ∧
      (slopeOf valores ≤ -(1/10) → direcaoOf valores = TrendDirection.DECLINIO) ∧
      (1/10 ≤ |slopeOf valores| →
        intensidadeOf valores = min 100 (|slopeOf valores| * 100)) ∧
      (|slopeOf valores| < 1/10 → intensidadeOf valores = 20) := by
  intro valores
  refine ⟨⟨?_, ?_⟩, ?_, ?_, ?_, ?_⟩
  · intro hd
    by_contra hge
    push_neg at hge
    have hne : ¬ |slopeOf valores| < 1/10 := not_lt.2 hge
    rw [direcaoOf, if_neg hne] at hd
    split_ifs at hd
  · intro hlt
    rw [direcaoOf, if_pos hlt]
  · intro hg
    have hpos : 0 < slopeOf valores := lt_of_lt_of_le (by norm_num) hg
    have hne : ¬ |slopeOf valores| < 1/10 := not_lt.2 (hg.trans (le_abs_self _))
    rw [direcaoOf, if_neg hne, if_pos hpos]
  · intro hd
    have habs : 1/10 ≤ |slopeOf valores| := by
      have := neg_abs_le (slopeOf valores)
      linarith
    have hnpos : ¬ 0 < slopeOf valores := by
      intro hpos
      linarith
    rw [direcaoOf, if_neg (not_lt.2 habs), if_neg hnpos]
  · intro hge
    rw [intensidadeOf, if_neg (not_lt.2 hge),
      show |slopeOf valores * 100| = |slopeOf valores| * 100 from by
        rw [abs_mul]
        norm_num]
  · intro hlt
    rw [intensidadeOf, if_pos hlt]

/-- Concrete instantiation of `tendencia_direcao_intensidade`: the series
`[1, 3]` has slope 2 ≥ 0.1, direction GROWTH, intensity min(100, 200) = 100. -/
theorem tendencia_direcao_witness :
    (1/10 ≤ slopeOf [1, 3] ∧ direcaoOf [1, 3] = .CRESCIMENTO) ∧
      intensidadeOf [1, 3] = 100 := by
  have h : slopeOf [1, 3] = 2 := by
    norm_num [slopeOf, List.enum, List.range_succ]
  have h1 : (1:ℚ)/10 ≤ slopeOf [1, 3] := by
    rw [h]
    norm_num
  refine ⟨⟨h1, (tendencia_direcao_intensidade [1, 3]).2.1 h1⟩, ?_⟩
  have h2 := (tendencia_direcao_intensidade [1, 3]).2.2.2.1 (h1.trans (le_abs_self _))
  rw [h2, h]
  norm_num

/-- C1 (evidence of the code slip): the concentration index of the
equal-value 4-debtor ledger is 0 as claimed, but on the ledger
`[999997, 1, 1, 1]` — one debtor holding essentially 100% of the total —
the code produces −3/4 = −(n−1)/n, a NEGATIVE value, instead of the claimed
value close to (n−1)/n = 3/4: `_calcular_indice_gini` applies ascending
ranks 1..n to a list sorted in DESCENDING order, which flips the sign of
the standard Gini formula on concentrated ledgers. -/
theorem gini_ledger_concentrado_negativo :
    indiceConcentracao [100, 100, 100, 100] = 0 ∧
      indiceConcentracao [999997, 1, 1, 1] = -(3/4) ∧
      indiceConcentracao [999997, 1, 1, 1] < 0 := by
  refine ⟨?_, ?_, ?_⟩
  · rw [indiceConcentracao,
      show sortDesc [100, 100, 100, 100] = [100, 100, 100, 100] from
        List.mergeSort_of_sorted (by norm_num)]
    norm_num [calcularIndiceGini, quantize3, roundHalfEven, List.enum]
  · rw [indiceConcentracao,
      show sortDesc [999997, 1, 1, 1] = [999997, 1, 1, 1] from
        List.mergeSort_of_sorted (by norm_num)]
    norm_num [calcularIndiceGini, quantize3, roundHalfEven, List.enum]
  · rw [indiceConcentracao,
      show sortDesc [999997, 1, 1, 1] = [999997, 1, 1, 1] from
        List.mergeSort_of_sorted (by norm_num)]
    norm_num [calcularIndiceGini, quantize3, roundHalfEven, List.enum]

/-- Concrete instantiation of `inadimplente_sem_dias_risco_alto`: a debtor
with a 1-real debt and no days-late field is classified `ALTO`. -/
theorem inadimplente_sem_dias_witness :
    ((⟨"loja", 1, none, none⟩ : InadimplenteRaw).diasAtraso = none ∧
        (0 : ℚ) < 1) ∧
      ((converterInadimplente ⟨"loja", 1, none, none⟩).diasAtraso = 60 ∧
        ((converterInadimplente ⟨"loja", 1, none, none⟩).risco = .ALTO ∨
          (converterInadimplente ⟨"loja", 1, none, none⟩).risco = .MUITO_ALTO)) :=
  ⟨⟨rfl, by norm_num⟩,
    inadimplente_sem_dias_risco_alto ⟨"loja", 1, none, none⟩ rfl (by norm_num)⟩

/-- C3 counterexample: on an empty input every analyzer's failure reaches
the caller as a `CalculationError`, not as an `InsufficientDataError` — the
`except Exception` boundary of each `analisar` catches and re-wraps the
`InsufficientDataError` raised inside it. -/
theorem insuficiencia_chega_como_calculation_error :
    failsInsufficientData (analisarCashflowE []) = false ∧
      failsCalculationError (analisarCashflowE []) = true ∧
      failsInsufficientData (analisarTendenciasE []) = false ∧
      failsCalculationError (analisarTendenciasE []) = true ∧
      failsInsufficientData (analisarInadimplenciaE []) = false ∧
      failsCalculationError (analisarInadimplenciaE []) = true :=
  ⟨rfl, rfl, rfl, rfl, rfl, rfl⟩

/-- C3 (amended): below the stated minimum (2 monthly records for cash flow,
3 observations for the generic trend engine, a non-empty ledger for
delinquency) each analyzer raises `InsufficientDataError` with the
required and actual counts internally, but its `except Exception` boundary
re-raises it as a `CalculationError` whose details are that error's
message, so the caller observes a `CalculationError`. -/
theorem insuficiencia_envolvida :
    (∀ movs : List MovimentacaoRaw, movs.length < 2 →
      analisarCashflowE movs = .error (.calculationError "analise_cashflow"
        (AnalysisError.message
          (.insufficientData "analise_cashflow" 2 movs.length)))) ∧
    (∀ dados : List ℚ, dados.length < 3 →
      analisarTendenciasE dados = .error (.calculationError "analise_tendencias"
        (AnalysisError.message
          (.insufficientData "analise_tendencias" 3 dados.length)))) ∧
    analisarInadimplenciaE [] = .error (.calculationError "analise_inadimplencia"
      (AnalysisError.message (.insufficientData "analise_inadimplencia" 1 0))) := by
  refine ⟨?_, ?_, rfl⟩
  · intro movs h
    simp only [analisarCashflowE, analisarCashflowBody, if_pos h]
    rfl
  · intro dados h
    simp only [analisarTendenciasE, if_pos h]

/-- Concrete instantiation of `insuficiencia_envolvida`: a single-month
input (below the 2-record minimum) yields the wrapped `CalculationError`. -/
theorem insuficiencia_envolvida_witness :
    ([] : List MovimentacaoRaw).length < 2 ∧
      analisarCashflowE [] = .error (.calculationError "analise_cashflow"
        (AnalysisError.message (.insufficientData "analise_cashflow" 2 0))) :=
  ⟨by decide, insuficiencia_envolvida.1 [] (by decide)⟩

theorem roundHalfEven_err (q : ℚ) : |(roundHalfEven q : ℚ) - q| ≤ 1/2 := by
  rw [roundHalfEven]
  have h0 : (0:ℚ) ≤ q - ⌊q⌋ := by linarith [Int.floor_le q]
  have h1 : q - ⌊q⌋ < 1 := by linarith [Int.lt_floor_add_one q]
  split_ifs with ha hb hc <;> rw [abs_le] <;> constructor <;> push_cast <;> linarith

theorem quantize1_err (x : ℚ) : |quantize1 x - x| ≤ 1/20 := by
  rw [quantize1]
  have h := roundHalfEven_err (10 * x)
  rw [abs_le] at h ⊢
  obtain ⟨hl, hr⟩ := h
  constructor <;> linarith

theorem sum_err_bound (l : List ℚ) (f g : ℚ → ℚ) (c : ℚ)
    (h : ∀ x ∈ l, |f x - g x| ≤ c) :
    |(l.map f).sum - (l.map g).sum| ≤ l.length * c := by
  induction l with
  | nil => simp
  | cons a t ih =>
    simp only [List.map_cons, List.sum_cons, List.length_cons]
    have ha := h a (by simp)
    have ht := ih (fun x hx => h x (by simp [hx]))
    have habs : |f a + (t.map f).sum - (g a + (t.map g).sum)| ≤
        |f a - g a| + |(t.map f).sum - (t.map g).sum| := by
      have h2 := abs_add (f a - g a) ((t.map f).sum - (t.map g).sum)
      calc |f a + (t.map f).sum - (g a + (t.map g).sum)|
          = |(f a - g a) + ((t.map f).sum - (t.map g).sum)| := by ring_nf
        _ ≤ _ := h2
    calc |f a + (t.map f).sum - (g a + (t.map g).sum)|
        ≤ |f a - g a| + |(t.map f).sum - (t.map g).sum| := habs
      _ ≤ c + t.length * c := add_le_add ha ht
      _ = (t.length + 1) * c := by ring
      _ = ((t.length + 1 : ℕ) : ℚ) * c := by push_cast; ring

theorem sum_map_share (l : List ℚ) (t : ℚ) :
    (l.map (fun v => v / t * 100)).sum = l.sum / t * 100 := by
  induction l with
  | nil => simp
  | cons a r ih =>
    simp only [List.map_cons, List.sum_cons, ih, add_div]
    ring

/-- C8: for a non-empty all-positive ledger, every ranking entry's percentage
share is the debtor's value over the total times 100 up to the one-decimal
quantization (error at most 0.05 per entry), and the shares sum to 100% up
to that rounding (error at most 0.05·n overall). -/
theorem ranking_participacoes_somam_100 :
    ∀ valores : List ℚ, valores ≠ [] → (∀ v ∈ valores, 0 < v) →
      (|(rankingParticipacoes valores).sum - 100| ≤ (valores.length : ℚ) / 20 ∧
        ∀ v ∈ sortDesc valores,
          |participacaoPercentual v valores.sum - v / valores.sum * 100| ≤ 1/20) := by
  intro valores hne hpos
  have hperm : (sortDesc valores).Perm valores := List.mergeSort_perm valores _
  have hsum : (sortDesc valores).sum = valores.sum := hperm.sum_eq
  have hlen : (sortDesc valores).length = valores.length := hperm.length_eq
  have htot : 0 < valores.sum := List.sum_pos valores hpos hne
  constructor
  · have hexact :
        ((sortDesc valores).map (fun v => v / valores.sum * 100)).sum = 100 := by
      rw [sum_map_share, hsum, div_self htot.ne']
      norm_num
    have hbound := sum_err_bound (sortDesc valores)
      (fun v => participacaoPercentual v valores.sum)
      (fun v => v / valores.sum * 100) (1/20)
      (fun x _ => quantize1_err (x / valores.sum * 100))
    rw [hexact, hlen] at hbound
    calc |(rankingParticipacoes valores).sum - 100|
        ≤ (valores.length : ℚ) * (1/20) := hbound
      _ = (valores.length : ℚ) / 20 := by ring
  · intro v _
    exact quantize1_err (v / valores.sum * 100)

/-- Concrete instantiation of `ranking_participacoes_somam_100` on the
two-debtor ledger `[1, 3]`. -/
theorem ranking_participacoes_witness :
    (([1, 3] : List ℚ) ≠ [] ∧ ∀ v ∈ ([1, 3] : List ℚ), 0 < v) ∧
      |(rankingParticipacoes [1, 3]).sum - 100| ≤ (2 : ℚ) / 20 := by
  have h := (ranking_participacoes_somam_100 [1, 3] (by simp) (by norm_num)).1
  exact ⟨⟨by simp, by norm_num⟩, by simpa using h⟩

theorem confiabilidade_neg_gt_100 : (100:ℝ) < confiabilidadeOf [-1, -3] := by
  rw [confiabilidadeOf]
  have hsv : sampleVar [-1, -3] = 2 := by norm_num [sampleVar, sumSqDev, mean]
  have hm : maxOf [-1, -3] = -1 := by norm_num [maxOf]
  simp only [hsv, hm]
  have hsqrt : (0:ℝ) < Real.sqrt 2 := Real.sqrt_pos.2 (by norm_num)
  have hlen : (([-1, -3] : List ℚ).length > 1) := by norm_num
  rw [if_pos hlen]
  have hgt : (100:ℝ) < 100 - Real.sqrt ((2:ℚ)) / (((-1 : ℚ)):ℝ) * 100 := by
    push_cast
    nlinarith
  exact lt_of_lt_of_le hgt (le_max_right _ _)

/-- C10: every per-metric trend confidence is at least 50 (it is
`max(50, ·)`); when the series maximum is positive the confidence lies in
[50, 100]; and there is a series with negative maximum — `[-1, -3]` — whose
confidence exceeds 100, so the `TendenciaFinanceira` record fails the
pydantic `validar_percentuais` check and its construction raises. -/
theorem confiabilidade_limites :
    (∀ (valores : List ℚ) (nome : String),
      50 ≤ (calcularTendenciaMetrica valores nome).confiabilidade) ∧
    (∀ (valores : List ℚ) (nome : String), 0 < maxOf valores →
      (calcularTendenciaMetrica valores nome).confiabilidade ≤ 100) ∧
    (∃ valores : List ℚ, maxOf valores < 0 ∧
      100 < (calcularTendenciaMetrica valores "Saldo Operacional").confiabilidade ∧
      ¬ TendenciaValida (calcularTendenciaMetrica valores "Saldo Operacional")) := by
  refine ⟨?_, ?_, ?_⟩
  · intro valores nome
    exact le_max_left _ _
  · intro valores nome hmax
    show confiabilidadeOf valores ≤ 100
    rw [confiabilidadeOf]
    have hvol : (0:ℝ) ≤
        (if valores.length > 1 then Real.sqrt (sampleVar valores) else 0) := by
      split_ifs
      · exact Real.sqrt_nonneg _
      · exact le_refl 0
    have hmaxR : (0:ℝ) < ((maxOf valores : ℚ) : ℝ) := by exact_mod_cast hmax
    have hdiv : (0:ℝ) ≤
        (if valores.length > 1 then Real.sqrt (sampleVar valores) else 0) /
          ((maxOf valores : ℚ) : ℝ) * 100 := by positivity
    apply max_le (by norm_num)
    linarith
  · refine ⟨[-1, -3], by norm_num [maxOf], confiabilidade_neg_gt_100, ?_⟩
    intro hv
    exact absurd hv.2.2.2 (not_le.2 confiabilidade_neg_gt_100)

/-- Concrete instantiation of `confiabilidade_limites`: the series `[1, 2]`
has positive maximum, so its trend confidence is at most 100. -/
theorem confiabilidade_limites_witness :
    0 < maxOf [1, 2] ∧
      (calcularTendenciaMetrica [1, 2] "Saldo Operacional").confiabilidade ≤ 100 :=
  ⟨by norm_num [maxOf],
    confiabilidade_limites.2.1 [1, 2] "Saldo Operacional" (by norm_num [maxOf])⟩

end ShoppingAnalysis
